import Mathlib

/-!
Verification of the MyNala Telegram reward bot's core ledger logic
(`src/MyNala_Telegram_Reward_Bot.py`).

The database table `users` is modelled as a `List UserRow` in insertion
(rowid) order.  Calendar dates (stored in the source as `YYYY-MM-DD`
strings and compared by `(now.date() - last).days`) are modelled as
integers counting days, so the day gap is plain integer subtraction.
-/

namespace MyNala

/-- One row of the `users` table (schema at lines 80-92 of the source). -/
structure UserRow where
  chat_id : Int
  verified : Bool
  wallet : String
  streak_days : Int
  last_purchase : Option Int
  total_volume : Int
  referral_count : Int
  total_rewards : Int
  referred_by : Option String
  deriving DecidableEq, Repr

/-- `BUY_STREAK_REWARDS = {3: 50000, 5: 100000, 7: 200000, 14: 500000, 30: 1000000}`
with `.get(new_streak, 0)` lookup (source lines 103 and 604). -/
def BUY_STREAK_REWARDS (n : Int) : Int :=
  if n = 3 then 50000
  else if n = 5 then 100000
  else if n = 7 then 200000
  else if n = 14 then 500000
  else if n = 30 then 1000000
  else 0

/-- `REFERRAL_BONUS_CAP = 500000` (source line 105; the constant is declared but,
as its comment says, "Not currently used in handlers"). -/
def REFERRAL_BONUS_CAP : Int := 500000

/-- `SELECT ... FROM users WHERE wallet=?` followed by `fetchone()`: the first
row (in rowid order) whose `wallet` column matches. -/
def findWallet (db : List UserRow) (w : String) : Option UserRow :=
  db.find? (fun r => r.wallet == w)

/-- The streak transition of `buy_tokens` (source lines 586-601): given the
current `streak_days`, the stored `last_purchase` and today's date, compute
the new streak. -/
def streakUpdate (current : Int) (last : Option Int) (today : Int) : Int :=
  match last with
  | none => 1
  | some d =>
    let diff := today - d
    if diff = 1 then current + 1
    else if 1 < diff then 1
    else if diff < 0 then 1
    else current

/-- Outcome reported by the `/verify` handler. -/
inductive VerifyResult
  | alreadyVerified
  | reverified
  | conflict
  | created
  | integrityError
  deriving DecidableEq, Repr

/-- The row inserted by `/verify` for a new wallet (source lines 357-360):
only `chat_id`, `wallet`, `verified = 1` and `last_purchase = today` are
supplied; the remaining columns take their schema defaults. -/
def freshRow (chat : Int) (w : String) (today : Int) : UserRow :=
  { chat_id := chat, verified := true, wallet := w, streak_days := 0,
    last_purchase := some today, total_volume := 0, referral_count := 0,
    total_rewards := 0, referred_by := none }

/-- The `/verify` handler `verify_wallet` (source lines 323-372).
`chat_id` is the table's primary key, so the INSERT of the new-wallet branch
raises `sqlite3.IntegrityError` (caught at line 364, no state change) when
the chat id already owns a row. -/
def verify_wallet (db : List UserRow) (chat : Int) (w : String) (today : Int) :
    List UserRow × VerifyResult :=
  match findWallet db w with
  | some r =>
      if r.chat_id = chat then
        if r.verified then (db, .alreadyVerified)
        else
          (db.map (fun u =>
            if u.wallet == w && u.chat_id == chat then { u with verified := true } else u),
           .reverified)
      else (db, .conflict)
  | none =>
      if db.any (fun r => r.chat_id == chat) then (db, .integrityError)
      else (db ++ [freshRow chat w today], .created)

/-- Errors of the `/buy` handler. -/
inductive BuyError
  | invalidAmount
  | notFound
  | notVerified
  deriving DecidableEq, Repr

/-- The values reported back by a successful `/buy`. -/
structure BuyOk where
  new_streak : Int
  new_volume : Int
  reward : Int
  new_total_rewards : Int
  deriving DecidableEq, Repr

/-- The `UPDATE users SET streak_days=?, last_purchase=?, total_volume=?,
total_rewards=? WHERE wallet=?` applied to one row (source lines 607-610). -/
def applyBuy (ns today nv nr : Int) (u : UserRow) : UserRow :=
  { u with streak_days := ns, last_purchase := some today,
           total_volume := nv, total_rewards := nr }

/-- The `/buy` handler `buy_tokens` (source lines 541-632): amount validation,
row lookup, verified check, streak transition, volume and reward update. -/
def buy_tokens (db : List UserRow) (w : String) (amount : Int) (today : Int) :
    List UserRow × Except BuyError BuyOk :=
  if amount ≤ 0 then (db, .error .invalidAmount)
  else
    match findWallet db w with
    | none => (db, .error .notFound)
    | some r =>
      if r.verified = false then (db, .error .notVerified)
      else
        let ns := streakUpdate r.streak_days r.last_purchase today
        let nv := r.total_volume + amount
        let rw := BUY_STREAK_REWARDS ns
        let nr := r.total_rewards + rw
        (db.map (fun u => if u.wallet == w then applyBuy ns today nv nr u else u),
         .ok { new_streak := ns, new_volume := nv, reward := rw, new_total_rewards := nr })

/-- The `/status` projection (source lines 393-397). -/
def check_status (db : List UserRow) (w : String) : Option (Bool × Int × Int × Int) :=
  (findWallet db w).map (fun r => (r.verified, r.streak_days, r.total_volume, r.total_rewards))

/-- The `/claim` projection (source line 436). -/
def claim_rewards (db : List UserRow) (w : String) : Option (Int × Bool) :=
  (findWallet db w).map (fun r => (r.total_rewards, r.verified))

/-- The `/referrals` projection (source line 522). -/
def check_referrals (db : List UserRow) (w : String) : Option (Int × Bool) :=
  (findWallet db w).map (fun r => (r.referral_count, r.verified))

/-- Modelled from the spec: the source declares `REFERRAL_BONUS_CAP` and the
`referred_by` column but contains no referral-registration handler, so
`registerReferral(newWallet, referrerWallet)` of spec section 4.1 is modelled
from the spec's words: a silent no-op when the referrer wallet is unknown;
otherwise the referrer's `referralCount` is incremented and the new account's
`referredBy` is set, only if not already set. -/
def registerReferral (db : List UserRow) (newWallet referrer : String) : List UserRow :=
  match findWallet db referrer with
  | none => db
  | some _ =>
      db.map (fun u =>
        if u.wallet == referrer then { u with referral_count := u.referral_count + 1 }
        else if u.wallet == newWallet && u.referred_by == none then
          { u with referred_by := some referrer }
        else u)

/-- `WHERE verified=1` (rows in rowid order). -/
def verifiedRows (db : List UserRow) : List UserRow :=
  db.filter (fun r => r.verified)

/-- What SQLite guarantees of `ORDER BY key DESC` in the leaderboard queries
(source lines 267, 281, 295): the result is some permutation of the scanned
rows that is descending in the key.  The relative order of rows with equal
keys is left unspecified by the engine, and the queries (no index, no
secondary sort column) pin nothing further down, so the sort is embedded as a
relation over its admissible outputs rather than as a function. -/
def orderByDesc (key : UserRow → Int) (input output : List UserRow) : Prop :=
  output.Perm input ∧ output.Pairwise (fun a b => key b ≤ key a)

/-- The admissible results of one leaderboard projection
`SELECT wallet, key FROM users WHERE verified=1 ORDER BY key DESC LIMIT n`:
the first n rows of any admissible `ORDER BY` result. -/
def leaderboardOutputs (key : UserRow → Int) (n : Nat) (db : List UserRow)
    (out : List UserRow) : Prop :=
  ∃ sorted, orderByDesc key (verifiedRows db) sorted ∧ out = sorted.take n

/-- The `/leaderboard` handler's three projections (source lines 255-319) as a
relation over admissible output triples: top n by `total_volume`, by
`total_rewards` and by `referral_count`. -/
def send_leaderboard (n : Nat) (db : List UserRow)
    (outV outR outC : List UserRow) : Prop :=
  leaderboardOutputs (fun r => r.total_volume) n db outV ∧
  leaderboardOutputs (fun r => r.total_rewards) n db outR ∧
  leaderboardOutputs (fun r => r.referral_count) n db outC

/-- What every admissible leaderboard projection satisfies: only verified
accounts, descending in the key, and top-n — the rows left out rank no higher
than any listed row, and listed plus left-out rows are exactly the verified
accounts. -/
def lbProps (key : UserRow → Int) (db : List UserRow) (out : List UserRow) : Prop :=
  (∀ r ∈ out, r.verified = true) ∧
  out.Pairwise (fun a b => key b ≤ key a) ∧
  ∃ rest, (out ++ rest).Perm (verifiedRows db) ∧
    ∀ b ∈ rest, ∀ a ∈ out, key b ≤ key a

/-- A sample verified account with a referrer, one day into a 2-day streak. -/
def rowA : UserRow :=
  { chat_id := 1, verified := true, wallet := "A", streak_days := 2,
    last_purchase := some 9, total_volume := 7, referral_count := 0,
    total_rewards := 0, referred_by := some "B" }

/-- A sample verified account acting as `rowA`'s referrer. -/
def rowB : UserRow :=
  { chat_id := 2, verified := true, wallet := "B", streak_days := 0,
    last_purchase := none, total_volume := 3, referral_count := 1,
    total_rewards := 11, referred_by := none }

/-- A sample unverified account. -/
def rowU : UserRow :=
  { chat_id := 5, verified := false, wallet := "U", streak_days := 0,
    last_purchase := none, total_volume := 0, referral_count := 0,
    total_rewards := 0, referred_by := none }

/-- A sample two-account table in insertion order. -/
def sampleDb : List UserRow := [rowB, rowA]

/-- Two verified accounts with equal keys; `rowT1` is created first. -/
def rowT1 : UserRow :=
  { chat_id := 7, verified := true, wallet := "T1", streak_days := 0,
    last_purchase := none, total_volume := 5, referral_count := 0,
    total_rewards := 0, referred_by := none }

/-- The later-created account tying `rowT1` on every leaderboard key. -/
def rowT2 : UserRow :=
  { chat_id := 8, verified := true, wallet := "T2", streak_days := 0,
    last_purchase := none, total_volume := 5, referral_count := 0,
    total_rewards := 0, referred_by := none }

/-- A table holding just the two tied accounts, `rowT1` inserted first. -/
def tieDb : List UserRow := [rowT1, rowT2]

/-! ### Basic lemmas about the embedded operations -/

/-- The reward table only pays non-negative amounts. -/
lemma BUY_STREAK_REWARDS_nonneg (n : Int) : 0 ≤ BUY_STREAK_REWARDS n := by
  unfold BUY_STREAK_REWARDS
  repeat' split
  all_goals norm_num

/-- `findWallet` commutes with mapping a wallet-preserving function over the table. -/
lemma findWallet_map (db : List UserRow) (w : String) (g : UserRow → UserRow)
    (hg : ∀ u, (g u).wallet = u.wallet) :
    findWallet (db.map g) w = (findWallet db w).map g := by
  induction db with
  | nil => rfl
  | cons a l ih =>
    simp only [findWallet, List.map_cons, List.find?_cons, hg a] at *
    cases h : (a.wallet == w) <;> simp [h, ih]

/-- A row found by `findWallet` matches the wallet. -/
lemma findWallet_wallet (db : List UserRow) (w : String) (r : UserRow)
    (hf : findWallet db w = some r) : r.wallet = w := by
  have := List.find?_some hf
  simpa using this

/-- A row found by `findWallet` is in the table. -/
lemma findWallet_mem (db : List UserRow) (w : String) (r : UserRow)
    (hf : findWallet db w = some r) : r ∈ db :=
  List.mem_of_find?_eq_some hf

/-- Under the schema's UNIQUE constraint on `wallet`, any member row carrying
the looked-up wallet is the found row. -/
lemma findWallet_eq_of_mem (db : List UserRow) (w : String) (r u : UserRow)
    (hU : (db.map (fun x => x.wallet)).Nodup)
    (hf : findWallet db w = some r) (hu : u ∈ db) (huw : u.wallet = w) : u = r :=
  List.inj_on_of_nodup_map hU hu (findWallet_mem db w r hf)
    (by rw [huw, findWallet_wallet db w r hf])

/-- Characterisation of a successful `/buy`: the handler's computed values and
the single-row UPDATE. -/
lemma buy_tokens_ok (db : List UserRow) (w : String) (amount today : Int) (r : UserRow)
    (hf : findWallet db w = some r) (hv : r.verified = true) (ha : 0 < amount) :
    buy_tokens db w amount today =
      (db.map (fun u => if u.wallet == w then
          applyBuy (streakUpdate r.streak_days r.last_purchase today) today
            (r.total_volume + amount)
            (r.total_rewards +
              BUY_STREAK_REWARDS (streakUpdate r.streak_days r.last_purchase today)) u
        else u),
       .ok { new_streak := streakUpdate r.streak_days r.last_purchase today,
             new_volume := r.total_volume + amount,
             reward := BUY_STREAK_REWARDS (streakUpdate r.streak_days r.last_purchase today),
             new_total_rewards := r.total_rewards +
               BUY_STREAK_REWARDS (streakUpdate r.streak_days r.last_purchase today) }) := by
  have h1 : ¬ amount ≤ 0 := by omega
  simp only [buy_tokens, if_neg h1, hf, hv]
  simp

/-- The five branches of `/verify`, with the facts driving each branch. -/
lemma verify_cases (db : List UserRow) (chat : Int) (w : String) (today : Int) :
    (∃ r, findWallet db w = some r ∧ r.chat_id = chat ∧ r.verified = true ∧
      verify_wallet db chat w today = (db, .alreadyVerified)) ∨
    (∃ r, findWallet db w = some r ∧ r.chat_id = chat ∧ r.verified = false ∧
      verify_wallet db chat w today =
        (db.map (fun u =>
          if u.wallet == w && u.chat_id == chat then { u with verified := true } else u),
         .reverified)) ∨
    (∃ r, findWallet db w = some r ∧ r.chat_id ≠ chat ∧
      verify_wallet db chat w today = (db, .conflict)) ∨
    (findWallet db w = none ∧ db.any (fun r => r.chat_id == chat) = true ∧
      verify_wallet db chat w today = (db, .integrityError)) ∨
    (findWallet db w = none ∧ db.any (fun r => r.chat_id == chat) = false ∧
      verify_wallet db chat w today = (db ++ [freshRow chat w today], .created)) := by
  cases hf : findWallet db w with
  | some r =>
    by_cases hc : r.chat_id = chat
    · cases hv : r.verified with
      | true =>
        exact Or.inl ⟨r, rfl, hc, hv, by simp [verify_wallet, hf, hc, hv]⟩
      | false =>
        exact Or.inr (Or.inl ⟨r, rfl, hc, hv, by simp [verify_wallet, hf, hc, hv]⟩)
    · exact Or.inr (Or.inr (Or.inl ⟨r, rfl, hc, by simp [verify_wallet, hf, hc]⟩))
  | none =>
    cases ha : db.any (fun r => r.chat_id == chat) with
    | true =>
      exact Or.inr (Or.inr (Or.inr (Or.inl ⟨rfl, rfl, by simp [verify_wallet, hf, ha]⟩)))
    | false =>
      exact Or.inr (Or.inr (Or.inr (Or.inr ⟨rfl, rfl, by simp [verify_wallet, hf, ha]⟩)))

/-- The error branches of `/buy`, in the order the handler checks them, and
the fact that every error leaves the table untouched. -/
lemma buy_tokens_err (db : List UserRow) (w : String) (amount today : Int) :
    (amount ≤ 0 → buy_tokens db w amount today = (db, .error .invalidAmount)) ∧
    (0 < amount → findWallet db w = none →
      buy_tokens db w amount today = (db, .error .notFound)) ∧
    (∀ r, 0 < amount → findWallet db w = some r → r.verified = false →
      buy_tokens db w amount today = (db, .error .notVerified)) := by
  refine ⟨fun h => by simp [buy_tokens, h], fun h hf => ?_, fun r h hf hv => ?_⟩
  · have h1 : ¬ amount ≤ 0 := by omega
    simp [buy_tokens, if_neg h1, hf]
  · have h1 : ¬ amount ≤ 0 := by omega
    simp [buy_tokens, if_neg h1, hf, hv]

/-- `/buy` keeps the table length and touches no row whose wallet differs from
the purchasing wallet. -/
lemma buy_tokens_frame (db : List UserRow) (w : String) (amount today : Int) :
    (buy_tokens db w amount today).1.length = db.length ∧
    ∀ i (h : i < db.length) (h2 : i < (buy_tokens db w amount today).1.length),
      (db.get ⟨i, h⟩).wallet ≠ w →
      (buy_tokens db w amount today).1.get ⟨i, h2⟩ = db.get ⟨i, h⟩ := by
  by_cases ha : amount ≤ 0
  · rw [(buy_tokens_err db w amount today).1 ha]
    exact ⟨rfl, fun i h h2 _ => rfl⟩
  · have ha2 : 0 < amount := by omega
    cases hf : findWallet db w with
    | none =>
      rw [(buy_tokens_err db w amount today).2.1 ha2 hf]
      exact ⟨rfl, fun i h h2 _ => rfl⟩
    | some r =>
      cases hv : r.verified with
      | false =>
        rw [(buy_tokens_err db w amount today).2.2 r ha2 hf hv]
        exact ⟨rfl, fun i h h2 _ => rfl⟩
      | true =>
        rw [buy_tokens_ok db w amount today r hf hv ha2]
        refine ⟨by simp, fun i h h2 hne => ?_⟩
        have hb : ((db.get ⟨i, h⟩).wallet == w) = false := by simpa using hne
        simp [hb]
        intro hw
        exact absurd hw hne

/-- Every admissible output of a leaderboard projection satisfies `lbProps`. -/
lemma lbProps_of_output (key : UserRow → Int) (n : Nat) (db : List UserRow)
    (out : List UserRow) (h : leaderboardOutputs key n db out) : lbProps key db out := by
  obtain ⟨sorted, ⟨hperm, hsort⟩, rfl⟩ := h
  refine ⟨?_, ?_, sorted.drop n, ?_, ?_⟩
  · intro r hr
    have h1 : r ∈ sorted := List.mem_of_mem_take hr
    have h2 : r ∈ verifiedRows db := hperm.mem_iff.mp h1
    exact (List.mem_filter.mp h2).2
  · exact hsort.sublist (List.take_sublist n sorted)
  · rw [List.take_append_drop]
    exact hperm
  · rw [← List.take_append_drop n sorted] at hsort
    obtain ⟨-, -, hcross⟩ := List.pairwise_append.mp hsort
    intro b hb a ha
    exact hcross a ha b hb

/-! ### The claims -/

/-- The single-row UPDATE of `/buy` does not change a row's wallet. -/
lemma applyBuy_if_wallet (w : String) (ns today nv nr : Int) (u : UserRow) :
    (if u.wallet == w then applyBuy ns today nv nr u else u).wallet = u.wallet := by
  split <;> rfl

/-- The row found by `findWallet` satisfies the boolean wallet test. -/
lemma findWallet_beq (db : List UserRow) (w : String) (r : UserRow)
    (hf : findWallet db w = some r) : (r.wallet == w) = true := by
  simp [findWallet_wallet db w r hf]

/-- The values a successful `/buy` reports back. -/
lemma buy_tokens_snd (db : List UserRow) (w : String) (amount today : Int) (r : UserRow)
    (hf : findWallet db w = some r) (hv : r.verified = true) (ha : 0 < amount) :
    (buy_tokens db w amount today).2 = Except.ok
      { new_streak := streakUpdate r.streak_days r.last_purchase today,
        new_volume := r.total_volume + amount,
        reward := BUY_STREAK_REWARDS (streakUpdate r.streak_days r.last_purchase today),
        new_total_rewards := r.total_rewards +
          BUY_STREAK_REWARDS (streakUpdate r.streak_days r.last_purchase today) } := by
  rw [buy_tokens_ok db w amount today r hf hv ha]

/-- After a successful `/buy`, looking the wallet up again returns the updated
row. -/
lemma buy_tokens_found (db : List UserRow) (w : String) (amount today : Int) (r : UserRow)
    (hf : findWallet db w = some r) (hv : r.verified = true) (ha : 0 < amount) :
    findWallet (buy_tokens db w amount today).1 w = some
      (applyBuy (streakUpdate r.streak_days r.last_purchase today) today
        (r.total_volume + amount)
        (r.total_rewards + BUY_STREAK_REWARDS (streakUpdate r.streak_days r.last_purchase today))
        r) := by
  rw [buy_tokens_ok db w amount today r hf hv ha]
  show findWallet (db.map _) w = _
  rw [findWallet_map db w _ (fun u => applyBuy_if_wallet w _ _ _ _ u), hf]
  simp [findWallet_beq db w r hf]
  intro hnw
  exact absurd (findWallet_wallet db w r hf) hnw

/-- Case table of the reward lookup. -/
lemma BUY_STREAK_REWARDS_spec (n : Int) :
    (n = 3 → BUY_STREAK_REWARDS n = 50000) ∧
    (n = 5 → BUY_STREAK_REWARDS n = 100000) ∧
    (n = 7 → BUY_STREAK_REWARDS n = 200000) ∧
    (n = 14 → BUY_STREAK_REWARDS n = 500000) ∧
    (n = 30 → BUY_STREAK_REWARDS n = 1000000) ∧
    (n ≠ 3 → n ≠ 5 → n ≠ 7 → n ≠ 14 → n ≠ 30 → BUY_STREAK_REWARDS n = 0) := by
  refine ⟨?_, ?_, ?_, ?_, ?_, ?_⟩ <;> intros <;> simp [BUY_STREAK_REWARDS, *]

/-- C1: for every verified, existing account, the `/buy` handler computes the
new streak from the UTC calendar-day gap between now and the stored
`last_purchase`: no prior purchase gives streak 1; a gap of exactly 1 day
increments the streak; a gap of 0 days leaves it unchanged; a gap greater
than 1 day resets it to 1; a negative gap also resets it to 1.  The new
streak is both reported back and stored on the account's row. -/
theorem C1_streak_law (db : List UserRow) (w : String) (amount today : Int) (r : UserRow)
    (hf : findWallet db w = some r) (hv : r.verified = true) (ha : 0 < amount) :
    (∃ ok, (buy_tokens db w amount today).2 = Except.ok ok ∧
      ok.new_streak = streakUpdate r.streak_days r.last_purchase today) ∧
    (∃ r2, findWallet (buy_tokens db w amount today).1 w = some r2 ∧
      r2.streak_days = streakUpdate r.streak_days r.last_purchase today) ∧
    (r.last_purchase = none → streakUpdate r.streak_days r.last_purchase today = 1) ∧
    (∀ d, r.last_purchase = some d →
      (today - d = 1 → streakUpdate r.streak_days r.last_purchase today = r.streak_days + 1) ∧
      (today - d = 0 → streakUpdate r.streak_days r.last_purchase today = r.streak_days) ∧
      (1 < today - d → streakUpdate r.streak_days r.last_purchase today = 1) ∧
      (today - d < 0 → streakUpdate r.streak_days r.last_purchase today = 1)) := by
  refine ⟨⟨_, buy_tokens_snd db w amount today r hf hv ha, rfl⟩,
    ⟨_, buy_tokens_found db w amount today r hf hv ha, rfl⟩, ?_, ?_⟩
  · intro hnone; simp [streakUpdate, hnone]
  · intro d hd
    refine ⟨fun hgap => ?_, fun hgap => ?_, fun hgap => ?_, fun hgap => ?_⟩ <;>
      simp only [streakUpdate, hd] <;> split_ifs <;> omega

/-- C1 witness: a concrete gap-of-one-day purchase increments the streak from
2 to 3. -/
theorem C1_streak_law_witness :
    ∃ ok, (buy_tokens sampleDb "A" 10 10).2 = Except.ok ok ∧ ok.new_streak = 3 := by
  obtain ⟨⟨ok, h1, h2⟩, -, -, h4⟩ :=
    C1_streak_law sampleDb "A" 10 10 rowA (by decide) (by decide) (by norm_num)
  have h5 := (h4 9 rfl).1 (by norm_num)
  exact ⟨ok, h1, by rw [h2, h5]; decide⟩

/-- C2: a successful `/buy` credits a reward to `total_rewards` iff the
post-transition streak is exactly one of 3, 5, 7, 14, 30, paying 50000,
100000, 200000, 500000, 1000000 respectively, and 0 on every other streak
value; the credited reward is added to the stored `total_rewards`. -/
theorem C2_reward_law (db : List UserRow) (w : String) (amount today : Int) (r : UserRow)
    (hf : findWallet db w = some r) (hv : r.verified = true) (ha : 0 < amount) :
    ∃ ok, (buy_tokens db w amount today).2 = Except.ok ok ∧
      ok.reward = BUY_STREAK_REWARDS ok.new_streak ∧
      ok.new_total_rewards = r.total_rewards + ok.reward ∧
      (∃ r2, findWallet (buy_tokens db w amount today).1 w = some r2 ∧
        r2.total_rewards = r.total_rewards + ok.reward) ∧
      (ok.new_streak = 3 → ok.reward = 50000) ∧
      (ok.new_streak = 5 → ok.reward = 100000) ∧
      (ok.new_streak = 7 → ok.reward = 200000) ∧
      (ok.new_streak = 14 → ok.reward = 500000) ∧
      (ok.new_streak = 30 → ok.reward = 1000000) ∧
      (ok.new_streak ≠ 3 → ok.new_streak ≠ 5 → ok.new_streak ≠ 7 →
        ok.new_streak ≠ 14 → ok.new_streak ≠ 30 → ok.reward = 0) := by
  refine ⟨_, buy_tokens_snd db w amount today r hf hv ha, rfl, rfl,
    ⟨_, buy_tokens_found db w amount today r hf hv ha, rfl⟩,
    (BUY_STREAK_REWARDS_spec _).1,
    (BUY_STREAK_REWARDS_spec _).2.1,
    (BUY_STREAK_REWARDS_spec _).2.2.1,
    (BUY_STREAK_REWARDS_spec _).2.2.2.1,
    (BUY_STREAK_REWARDS_spec _).2.2.2.2.1,
    (BUY_STREAK_REWARDS_spec _).2.2.2.2.2⟩

/-- C2 witness: a concrete purchase reaching the 3-day milestone credits
exactly 50000. -/
theorem C2_reward_law_witness :
    ∃ ok, (buy_tokens sampleDb "A" 10 10).2 = Except.ok ok ∧
      ok.reward = 50000 ∧ ok.new_total_rewards = 50000 := by
  obtain ⟨ok, h1, -⟩ :=
    C2_reward_law sampleDb "A" 10 10 rowA (by decide) (by decide) (by norm_num)
  have he : (buy_tokens sampleDb "A" 10 10).2 = Except.ok
      { new_streak := 3, new_volume := 17, reward := 50000, new_total_rewards := 50000 } := by
    rfl
  rw [he] at h1
  injection h1 with h1
  exact ⟨ok, by rw [he, h1], by rw [← h1], by rw [← h1]⟩

/-- C4: a successful `/buy` with a positive amount adds exactly that amount to
the stored `total_volume` and stamps `last_purchase` with today's UTC date. -/
theorem C4_volume_law (db : List UserRow) (w : String) (amount today : Int) (r : UserRow)
    (hf : findWallet db w = some r) (hv : r.verified = true) (ha : 0 < amount) :
    ∃ r2, findWallet (buy_tokens db w amount today).1 w = some r2 ∧
      r2.total_volume = r.total_volume + amount ∧
      r2.last_purchase = some today ∧
      (∃ ok, (buy_tokens db w amount today).2 = Except.ok ok ∧
        ok.new_volume = r.total_volume + amount) := by
  exact ⟨_, buy_tokens_found db w amount today r hf hv ha, rfl, rfl,
    ⟨_, buy_tokens_snd db w amount today r hf hv ha, rfl⟩⟩

/-- C4 witness: a concrete purchase of 10 raises the stored volume from 7
to 17 and stamps the date. -/
theorem C4_volume_law_witness :
    ∃ r2, findWallet (buy_tokens sampleDb "A" 10 10).1 "A" = some r2 ∧
      r2.total_volume = 17 ∧ r2.last_purchase = some 10 := by
  obtain ⟨r2, h1, h2, h3, -⟩ :=
    C4_volume_law sampleDb "A" 10 10 rowA (by decide) (by decide) (by norm_num)
  exact ⟨r2, h1, by rw [h2]; decide, h3⟩

/-- C6: `/buy` fails with the not-found error on an unknown wallet, the
not-verified error on an unverified account, the invalid-amount error on a
non-positive amount (checked first, as in the handler), and every failing
call leaves the table exactly as it was. -/
theorem C6_error_cases (db : List UserRow) (w : String) (amount today : Int) :
    (amount ≤ 0 → buy_tokens db w amount today = (db, .error .invalidAmount)) ∧
    (0 < amount → findWallet db w = none →
      buy_tokens db w amount today = (db, .error .notFound)) ∧
    (∀ r, 0 < amount → findWallet db w = some r → r.verified = false →
      buy_tokens db w amount today = (db, .error .notVerified)) ∧
    (∀ e, (buy_tokens db w amount today).2 = .error e →
      (buy_tokens db w amount today).1 = db) := by
  refine ⟨(buy_tokens_err db w amount today).1, (buy_tokens_err db w amount today).2.1,
    (buy_tokens_err db w amount today).2.2, fun e he => ?_⟩
  by_cases ha : amount ≤ 0
  · rw [(buy_tokens_err db w amount today).1 ha]
  · have ha2 : 0 < amount := by omega
    cases hf : findWallet db w with
    | none => rw [(buy_tokens_err db w amount today).2.1 ha2 hf]
    | some r =>
      cases hv : r.verified with
      | false => rw [(buy_tokens_err db w amount today).2.2 r ha2 hf hv]
      | true =>
        rw [buy_tokens_snd db w amount today r hf hv ha2] at he
        exact absurd he (by simp)

/-- C6 witness: the three failing calls on concrete tables, each leaving the
table unchanged. -/
theorem C6_error_cases_witness :
    buy_tokens sampleDb "A" (-5) 3 = (sampleDb, .error .invalidAmount) ∧
    buy_tokens sampleDb "C" 5 3 = (sampleDb, .error .notFound) ∧
    buy_tokens [rowU] "U" 5 3 = ([rowU], .error .notVerified) :=
  ⟨(C6_error_cases sampleDb "A" (-5) 3).1 (by norm_num),
   (C6_error_cases sampleDb "C" 5 3).2.1 (by norm_num) (by decide),
   (C6_error_cases [rowU] "U" 5 3).2.2.1 rowU (by norm_num) (by decide) (by decide)⟩

/-- C10: a `/buy` call keeps the table's length and leaves every row whose
wallet differs from the purchasing wallet exactly as it was, whether the call
succeeds or fails. -/
theorem C10_buy_frame (db : List UserRow) (w : String) (amount today : Int) :
    (buy_tokens db w amount today).1.length = db.length ∧
    ∀ i (h : i < db.length) (h2 : i < (buy_tokens db w amount today).1.length),
      (db.get ⟨i, h⟩).wallet ≠ w →
      (buy_tokens db w amount today).1.get ⟨i, h2⟩ = db.get ⟨i, h⟩ :=
  buy_tokens_frame db w amount today

/-- C10 witness: the referrer row at index 0 is untouched by a concrete
successful `/buy` on the other account. -/
theorem C10_buy_frame_witness :
    (buy_tokens sampleDb "A" 10 10).1.length = sampleDb.length ∧
    (buy_tokens sampleDb "A" 10 10).1.get ⟨0, by decide⟩ = sampleDb.get ⟨0, by decide⟩ :=
  ⟨(C10_buy_frame sampleDb "A" 10 10).1,
   (C10_buy_frame sampleDb "A" 10 10).2 0 (by decide) (by decide) (by decide)⟩

/-- C3 counterexample: `rowA` has `referred_by = some "B"` and its purchase
credits the streak reward 50000 > 0, yet referrer `rowB`'s `total_rewards`
stays 11 — the claim demands it rise by min(floor(0.05 * 50000), 500000) =
2500.  The handler pays no referral bonus at all. -/
theorem C3_counterexample :
    rowA.referred_by = some "B" ∧
    (buy_tokens sampleDb "A" 10 10).2 = Except.ok
      { new_streak := 3, new_volume := 17, reward := 50000, new_total_rewards := 50000 } ∧
    (findWallet sampleDb "B").map (fun r => r.total_rewards) = some 11 ∧
    (findWallet (buy_tokens sampleDb "A" 10 10).1 "B").map (fun r => r.total_rewards) =
      some 11 :=
  ⟨rfl, rfl, rfl, rfl⟩

/-- C3 (amended): the source contains no referral-bonus payout.  For every
account A with `referred_by = B` (B a different wallet), a `/buy` by A leaves
B's entire row — its `total_rewards` in particular — unchanged, whether or
not a streak reward was credited to A. -/
theorem C3_no_referral_bonus (db : List UserRow) (w : String) (amount today : Int)
    (r : UserRow) (B : String) (hf : findWallet db w = some r)
    (hrb : r.referred_by = some B) (hBw : B ≠ w) :
    ∀ i (h : i < db.length) (h2 : i < (buy_tokens db w amount today).1.length),
      (db.get ⟨i, h⟩).wallet = B →
      (buy_tokens db w amount today).1.get ⟨i, h2⟩ = db.get ⟨i, h⟩ ∧
      ((buy_tokens db w amount today).1.get ⟨i, h2⟩).total_rewards =
        (db.get ⟨i, h⟩).total_rewards := by
  intro i h h2 hB
  have hne : (db.get ⟨i, h⟩).wallet ≠ w := by rw [hB]; exact hBw
  have := (buy_tokens_frame db w amount today).2 i h h2 hne
  exact ⟨this, by rw [this]⟩

/-- C3 (amended) witness: the concrete milestone purchase of the
counterexample leaves the referrer row untouched. -/
theorem C3_no_referral_bonus_witness :
    (buy_tokens sampleDb "A" 10 10).1.get ⟨0, by decide⟩ = sampleDb.get ⟨0, by decide⟩ ∧
    ((buy_tokens sampleDb "A" 10 10).1.get ⟨0, by decide⟩).total_rewards =
      (sampleDb.get ⟨0, by decide⟩).total_rewards :=
  C3_no_referral_bonus sampleDb "A" 10 10 rowA "B" (by decide) (by decide) (by decide)
    0 (by decide) (by decide) (by decide)

/-- C5 counterexample: `/verify` on a fresh wallet stores today's date, not
null, in `last_purchase`; and a fresh wallet is not created at all when the
chat id already owns a row (`chat_id` is the primary key). -/
theorem C5_counterexample :
    (findWallet (verify_wallet [] 1 "w" 7).1 "w").map (fun r => r.last_purchase) =
      some (some 7) ∧
    (verify_wallet [] 1 "w" 7).2 = VerifyResult.created ∧
    findWallet (verify_wallet [rowA] 1 "B" 7).1 "B" = none ∧
    (verify_wallet [rowA] 1 "B" 7).2 = VerifyResult.integrityError := by
  decide

/-- C5 (amended): when the wallet is unknown and the chat id owns no row yet,
`/verify` creates the account verified, with `last_purchase` stamped with
today's UTC date (not null) and all counters zero. -/
theorem C5_verify_creates (db : List UserRow) (chat : Int) (w : String) (today : Int)
    (hf : findWallet db w = none)
    (hc : db.any (fun r => r.chat_id == chat) = false) :
    (verify_wallet db chat w today).2 = .created ∧
    ∃ r2, findWallet (verify_wallet db chat w today).1 w = some r2 ∧
      r2.verified = true ∧ r2.last_purchase = some today ∧ r2.wallet = w ∧
      r2.chat_id = chat ∧ r2.streak_days = 0 ∧ r2.total_volume = 0 ∧
      r2.total_rewards = 0 ∧ r2.referred_by = none := by
  have hv : verify_wallet db chat w today = (db ++ [freshRow chat w today], .created) := by
    simp [verify_wallet, hf, hc]
  rw [hv]
  refine ⟨rfl, freshRow chat w today, ?_, rfl, rfl, rfl, rfl, rfl, rfl, rfl, rfl⟩
  simp only [findWallet] at hf ⊢
  rw [List.find?_append, hf]
  simp [freshRow]

/-- C5 (amended) witness: creating a wallet in the empty table. -/
theorem C5_verify_creates_witness :
    (verify_wallet [] 4 "w" 7).2 = VerifyResult.created ∧
    ∃ r2, findWallet (verify_wallet [] 4 "w" 7).1 "w" = some r2 ∧
      r2.verified = true ∧ r2.last_purchase = some 7 := by
  obtain ⟨h1, r2, h2, h3, h4, -⟩ := C5_verify_creates [] 4 "w" 7 (by decide) (by decide)
  exact ⟨h1, r2, h2, h3, h4⟩

/-- Transport a list index along an equation between tables. -/
lemma get_of_eq (l l2 : List UserRow) (e : l2 = l) (i : Nat) (h2 : i < l2.length) :
    ∃ h : i < l.length, l2.get ⟨i, h2⟩ = l.get ⟨i, h⟩ := by
  subst e; exact ⟨h2, rfl⟩

/-- Indexing into a mapped table. -/
lemma get_map_at (g : UserRow → UserRow) (l : List UserRow) (i : Nat)
    (h : i < l.length) (h2 : i < (l.map g).length) :
    (l.map g).get ⟨i, h2⟩ = g (l.get ⟨i, h⟩) := by
  simp

/-- Indexing into the old part of a table after an INSERT. -/
lemma get_append_at (l : List UserRow) (x : UserRow) (i : Nat)
    (h : i < l.length) (h2 : i < (l ++ [x]).length) :
    (l ++ [x]).get ⟨i, h2⟩ = l.get ⟨i, h⟩ := by
  simp [List.getElem_append_left h]

/-- C7: under the schema's UNIQUE wallet constraint, no operation of the bot
ever decreases any account's `total_rewards` or `total_volume`: `/verify`,
`/buy` and referral registration leave every row's two running totals at or
above their previous values (the query projections `check_status`,
`claim_rewards`, `check_referrals` and `send_leaderboard` are read-only by
construction: they are functions of the table returning no new table, and
`send_leaderboard` relates the table to its output lists without producing a
new table). -/
theorem C7_monotonic (db : List UserRow) (hU : (db.map (fun r => r.wallet)).Nodup)
    (i : Nat) (h : i < db.length) :
    (∀ chat w today (h2 : i < (verify_wallet db chat w today).1.length),
      (db.get ⟨i, h⟩).total_rewards ≤
        ((verify_wallet db chat w today).1.get ⟨i, h2⟩).total_rewards ∧
      (db.get ⟨i, h⟩).total_volume ≤
        ((verify_wallet db chat w today).1.get ⟨i, h2⟩).total_volume) ∧
    (∀ w amount today (h2 : i < (buy_tokens db w amount today).1.length),
      (db.get ⟨i, h⟩).total_rewards ≤
        ((buy_tokens db w amount today).1.get ⟨i, h2⟩).total_rewards ∧
      (db.get ⟨i, h⟩).total_volume ≤
        ((buy_tokens db w amount today).1.get ⟨i, h2⟩).total_volume) ∧
    (∀ nw refw (h2 : i < (registerReferral db nw refw).length),
      (db.get ⟨i, h⟩).total_rewards ≤
        ((registerReferral db nw refw).get ⟨i, h2⟩).total_rewards ∧
      (db.get ⟨i, h⟩).total_volume ≤
        ((registerReferral db nw refw).get ⟨i, h2⟩).total_volume) := by
  refine ⟨?_, ?_, ?_⟩
  · intro chat w today h2
    rcases verify_cases db chat w today with
      ⟨r, hf, hc, hv, he⟩ | ⟨r, hf, hc, hv, he⟩ | ⟨r, hf, hc, he⟩ | ⟨hf, hany, he⟩ |
      ⟨hf, hany, he⟩
    · obtain ⟨hm, hg⟩ := get_of_eq db _ (by rw [he]) i h2
      rw [hg]; exact ⟨le_rfl, le_rfl⟩
    · obtain ⟨hm, hg⟩ := get_of_eq
        (db.map (fun u =>
          if u.wallet == w && u.chat_id == chat then { u with verified := true } else u))
        _ (by rw [he]) i h2
      rw [hg, get_map_at _ db i h hm]
      refine ⟨?_, ?_⟩ <;> (dsimp only; split <;> exact le_rfl)
    · obtain ⟨hm, hg⟩ := get_of_eq db _ (by rw [he]) i h2
      rw [hg]; exact ⟨le_rfl, le_rfl⟩
    · obtain ⟨hm, hg⟩ := get_of_eq db _ (by rw [he]) i h2
      rw [hg]; exact ⟨le_rfl, le_rfl⟩
    · obtain ⟨hm, hg⟩ := get_of_eq (db ++ [freshRow chat w today]) _ (by rw [he]) i h2
      rw [hg, get_append_at db _ i h hm]
      exact ⟨le_rfl, le_rfl⟩
  · intro w amount today h2
    by_cases ha : amount ≤ 0
    · obtain ⟨hm, hg⟩ :=
        get_of_eq db _ (by rw [(buy_tokens_err db w amount today).1 ha]) i h2
      rw [hg]; exact ⟨le_rfl, le_rfl⟩
    · have ha2 : 0 < amount := by omega
      cases hf : findWallet db w with
      | none =>
        obtain ⟨hm, hg⟩ :=
          get_of_eq db _ (by rw [(buy_tokens_err db w amount today).2.1 ha2 hf]) i h2
        rw [hg]; exact ⟨le_rfl, le_rfl⟩
      | some r =>
        cases hv : r.verified with
        | false =>
          obtain ⟨hm, hg⟩ :=
            get_of_eq db _ (by rw [(buy_tokens_err db w amount today).2.2 r ha2 hf hv]) i h2
          rw [hg]; exact ⟨le_rfl, le_rfl⟩
        | true =>
          obtain ⟨hm, hg⟩ := get_of_eq
            (db.map (fun u => if u.wallet == w then
              applyBuy (streakUpdate r.streak_days r.last_purchase today) today
                (r.total_volume + amount)
                (r.total_rewards +
                  BUY_STREAK_REWARDS (streakUpdate r.streak_days r.last_purchase today)) u
              else u))
            _ (by rw [buy_tokens_ok db w amount today r hf hv ha2]) i h2
          rw [hg, get_map_at _ db i h hm]
          by_cases hw : (db.get ⟨i, h⟩).wallet = w
          · have hur : db.get ⟨i, h⟩ = r :=
              findWallet_eq_of_mem db w r _ hU hf (List.get_mem db i h) hw
            rw [hur]
            have hb : (r.wallet == w) = true := findWallet_beq db w r hf
            simp only [hb, if_pos, applyBuy]
            constructor
            · have := BUY_STREAK_REWARDS_nonneg (streakUpdate r.streak_days r.last_purchase today)
              omega
            · omega
          · have hb : ((db.get ⟨i, h⟩).wallet == w) = false := by simpa using hw
            simp only [hb, Bool.false_eq_true, if_false]
            exact ⟨le_rfl, le_rfl⟩
  · intro nw refw h2
    cases hfr : findWallet db refw with
    | none =>
      obtain ⟨hm, hg⟩ := get_of_eq db _ (by simp [registerReferral, hfr]) i h2
      rw [hg]; exact ⟨le_rfl, le_rfl⟩
    | some r0 =>
      obtain ⟨hm, hg⟩ := get_of_eq
        (db.map (fun u =>
          if u.wallet == refw then { u with referral_count := u.referral_count + 1 }
          else if u.wallet == nw && u.referred_by == none then
            { u with referred_by := some refw }
          else u))
        _ (by simp [registerReferral, hfr]) i h2
      rw [hg, get_map_at _ db i h hm]
      have key : ∀ u : UserRow,
          u.total_rewards =
            ((fun u =>
              if u.wallet == refw then { u with referral_count := u.referral_count + 1 }
              else if u.wallet == nw && u.referred_by == none then
                { u with referred_by := some refw }
              else u) u).total_rewards ∧
          u.total_volume =
            ((fun u =>
              if u.wallet == refw then { u with referral_count := u.referral_count + 1 }
              else if u.wallet == nw && u.referred_by == none then
                { u with referred_by := some refw }
              else u) u).total_volume := by
        intro u
        dsimp only
        split
        · exact ⟨rfl, rfl⟩
        · split
          · exact ⟨rfl, rfl⟩
          · exact ⟨rfl, rfl⟩
      exact ⟨(key _).1.le, (key _).2.le⟩

/-- C7 witness: a concrete `/buy` leaves the untouched row's totals equal and
raises the buyer's, never decreasing either. -/
theorem C7_monotonic_witness :
    (sampleDb.get ⟨0, by decide⟩).total_rewards ≤
      ((buy_tokens sampleDb "A" 10 10).1.get ⟨0, by decide⟩).total_rewards ∧
    (sampleDb.get ⟨0, by decide⟩).total_volume ≤
      ((buy_tokens sampleDb "A" 10 10).1.get ⟨0, by decide⟩).total_volume :=
  (C7_monotonic sampleDb (by decide) 0 (by decide)).2.1 "A" 10 10 (by decide)

/-- A later `/verify` that finds the wallet already verified under the same
chat id changes nothing. -/
lemma verify_after_found_verified (db2 : List UserRow) (chat : Int) (w : String) (t : Int)
    (r2 : UserRow) (hfind : findWallet db2 w = some r2) (hc : r2.chat_id = chat)
    (hv : r2.verified = true) : verify_wallet db2 chat w t = (db2, .alreadyVerified) := by
  simp [verify_wallet, hfind, hc, hv]

/-- C8: `/verify` is idempotent — a second call with the same wallet and the
same chat handle, on any later date, changes nothing beyond the first call. -/
theorem C8_verify_idempotent (db : List UserRow) (chat : Int) (w : String) (t1 t2 : Int) :
    (verify_wallet (verify_wallet db chat w t1).1 chat w t2).1 =
      (verify_wallet db chat w t1).1 := by
  rcases verify_cases db chat w t1 with
    ⟨r, hf, hc, hv, he⟩ | ⟨r, hf, hc, hv, he⟩ | ⟨r, hf, hc, he⟩ | ⟨hf, hany, he⟩ |
    ⟨hf, hany, he⟩
  · rw [he]; simp [verify_wallet, hf, hc, hv]
  · rw [he]
    have hgw : ∀ u : UserRow,
        ((fun u => if u.wallet == w && u.chat_id == chat then { u with verified := true }
          else u) u).wallet = u.wallet := by
      intro u; dsimp only; split <;> rfl
    have hfind : findWallet
        (db.map (fun u =>
          if u.wallet == w && u.chat_id == chat then { u with verified := true } else u)) w =
        some { r with verified := true } := by
      rw [findWallet_map db w _ hgw, hf]
      have h1 : (r.wallet == w) = true := findWallet_beq db w r hf
      have h2 : (r.chat_id == chat) = true := by simp [hc]
      simp [h1, h2]
      intro hcon
      exact absurd hc (hcon (by simpa using h1))
    show (verify_wallet
      (db.map (fun u =>
        if u.wallet == w && u.chat_id == chat then { u with verified := true } else u))
      chat w t2).1 = _
    rw [verify_after_found_verified _ chat w t2 _ hfind hc rfl]
  · rw [he]; simp [verify_wallet, hf, hc]
  · rw [he]; simp [verify_wallet, hf, hany]
  · rw [he]
    have hfind : findWallet (db ++ [freshRow chat w t1]) w = some (freshRow chat w t1) := by
      simp only [findWallet] at hf ⊢
      rw [List.find?_append, hf]
      simp [freshRow]
    show (verify_wallet (db ++ [freshRow chat w t1]) chat w t2).1 = _
    rw [verify_after_found_verified _ chat w t2 _ hfind rfl rfl]

/-- C9 counterexample: `rowT1` and `rowT2` are distinct verified accounts with
equal keys and `rowT1` is created first, yet `[rowT2, rowT1]` is an admissible
result of the source's `ORDER BY total_volume DESC LIMIT` query on `tieDb`:
SQLite leaves the order of equal keys unspecified and the query adds no
tiebreaker, so the claimed first-created-wins tie-break is not guaranteed by
the program. -/
theorem C9_counterexample :
    rowT1.total_volume = rowT2.total_volume ∧
    rowT1 ≠ rowT2 ∧
    verifiedRows tieDb = [rowT1, rowT2] ∧
    leaderboardOutputs (fun r => r.total_volume) 2 tieDb [rowT2, rowT1] := by
  refine ⟨rfl, by decide, rfl, [rowT2, rowT1], ⟨?_, ?_⟩, rfl⟩
  · decide
  · decide

/-- C9 (amended): each of the three leaderboard projections returns the first
n rows of some permutation of the verified accounts that is descending in its
key; every such output lists only verified accounts, in descending key order,
and is a top-n cut — the rows left out rank no higher than any listed row and
listed plus left-out rows are exactly the verified accounts.  The relative
order of equal-key rows is unspecified. -/
theorem C9_leaderboard (n : Nat) (db : List UserRow) (outV outR outC : List UserRow)
    (h : send_leaderboard n db outV outR outC) :
    lbProps (fun r => r.total_volume) db outV ∧
    lbProps (fun r => r.total_rewards) db outR ∧
    lbProps (fun r => r.referral_count) db outC :=
  ⟨lbProps_of_output (fun r => r.total_volume) n db outV h.1,
   lbProps_of_output (fun r => r.total_rewards) n db outR h.2.1,
   lbProps_of_output (fun r => r.referral_count) n db outC h.2.2⟩

/-- C9 (amended) witness: a concrete admissible output triple on the sample
table, with the theorem giving that the listed top accounts are verified. -/
theorem C9_leaderboard_witness :
    rowA.verified = true ∧ rowB.verified = true := by
  have h : send_leaderboard 1 sampleDb [rowA] [rowB] [rowB] :=
    ⟨⟨[rowA, rowB], ⟨by decide, by decide⟩, rfl⟩,
     ⟨[rowB, rowA], ⟨by decide, by decide⟩, rfl⟩,
     ⟨[rowB, rowA], ⟨by decide, by decide⟩, rfl⟩⟩
  obtain ⟨h1, h2, -⟩ := C9_leaderboard 1 sampleDb [rowA] [rowB] [rowB] h
  exact ⟨h1.1 rowA (by decide), h2.1 rowB (by decide)⟩

end MyNala
